import Mathlib

set_option maxRecDepth 8000

/-!
Verification development for the workflow-initialization script
`.claude-workflow/scripts/init-workflow.py`.

The script is a one-shot scaffolding tool: it creates a fixed tree of
directories under `<project>/.claude-workflow`, optionally copies template
files from an external source tree, writes a hand-built `config.yml`, and
seeds several Markdown state documents.

We shallowly embed the script over an explicit file-system state:
directories are a set of paths, files an association list from path to
content, and console output a list of printed lines.  Python values that
flow through the `config_data` dictionary are modelled by `PyVal`
(string / bool / None), matching `dict.get`, truthiness and `str()`
rendering.  Python string operations used by the script (`str.lower`,
`str.split`, `str.replace`) are modelled by structurally recursive
functions so that all definitions evaluate inside the kernel.
-/

/-! ## Models of the Python primitives used by the script -/

/-- Model of a Python value stored in the `config_data` dictionary:
the script only ever stores strings, booleans and `None`. -/
inductive PyVal where
  | pystr (s : String)
  | pybool (b : Bool)
  | pynone
deriving DecidableEq, Repr

/-- Model of Python `str(v)` for the values that can occur. -/
def pyStr : PyVal → String
  | .pystr s => s
  | .pybool true => "True"
  | .pybool false => "False"
  | .pynone => "None"

/-- Model of Python `d.get(k, default)`: the stored value is returned even
when it is `None`; the default is used only when the key is absent. -/
def dictGet (d : List (String × PyVal)) (k : String) (default : PyVal) : PyVal :=
  match d.lookup k with
  | some v => v
  | none => default

/-- Model of Python `d[k] = v`: replace the binding if the key is present,
otherwise append a new one. -/
def dictSet (d : List (String × PyVal)) (k : String) (v : PyVal) : List (String × PyVal) :=
  if (d.lookup k).isSome then d.map (fun e => if e.1 = k then (k, v) else e)
  else d ++ [(k, v)]

/-- Model of Python `str.lower()` (the script only lowercases ASCII
platform names). -/
def pyLower (s : String) : String := ⟨s.data.map Char.toLower⟩

/-- Chunks of a character list split at a separator character. -/
def splitChunks (sep : Char) : List Char → List (List Char)
  | [] => [[]]
  | c :: rest =>
    match splitChunks sep rest with
    | [] => [[]]
    | chunk :: chunks => if c = sep then [] :: chunk :: chunks else (c :: chunk) :: chunks

/-- Model of Python `s.split(sep)` for a one-character separator (the
script splits on `","` only). -/
def pySplit (s : String) (sep : Char) : List String :=
  (splitChunks sep s.data).map (fun l => ⟨l⟩)

/-- Fuel-driven worker for `pyReplace`: left-to-right, non-overlapping
replacement of a nonempty pattern. -/
def replaceAllFuel (p r : List Char) : Nat → List Char → List Char
  | 0, s => s
  | _ + 1, [] => []
  | n + 1, c :: rest =>
    if p ≠ [] ∧ p.isPrefixOf (c :: rest) then r ++ replaceAllFuel p r n ((c :: rest).drop p.length)
    else c :: replaceAllFuel p r n rest

/-- Model of Python `s.replace(p, r)` for a nonempty pattern (the script
replaces the literal `"-template"`). -/
def pyReplace (s p r : String) : String :=
  ⟨replaceAllFuel p.data r.data (s.data.length + 1) s.data⟩

/-! ## File-system and console model -/

/-- A path is a list of components, as produced by `pathlib` joining. -/
abbrev FPath := List String

/-- Model of `pathlib.Path(s)`: split a textual path on `/`. -/
def splitPath (s : String) : FPath := pySplit s ('/')

/-- Parent directory of a path (`Path.parent`). -/
def parentPath (p : FPath) : FPath := p.dropLast

/-- Basename of a path (`Path.name`). -/
def pathName (p : FPath) : String := p.getLastD ("")

/-- File-system state: the set of existing directories and an association
list mapping file paths to contents (newest binding first). -/
structure FS where
  dirs : List FPath
  files : List (FPath × String)
deriving Repr

/-- All nonempty ancestor paths of `p`, including `p` itself. -/
def pathAncestors (p : FPath) : List FPath :=
  (List.range p.length).map (fun i => p.take (i + 1))

/-- Does this directory exist? -/
def FS.dirExists (fs : FS) (p : FPath) : Bool := fs.dirs.contains p

/-- Content of the file at `p`, newest write first. -/
def FS.readFile (fs : FS) (p : FPath) : Option String := fs.files.lookup p

/-- Does a file exist at `p` (model of `Path.exists()` for file paths)? -/
def FS.fileExists (fs : FS) (p : FPath) : Bool := (fs.readFile p).isSome

/-- Write `content` at path `p`, shadowing any previous binding. -/
def FS.writeFile (fs : FS) (p : FPath) (content : String) : FS :=
  { fs with files := (p, content) :: fs.files }

/-- Model of `Path.mkdir(parents=True, exist_ok=...)`: with `parents=True`
every missing ancestor is created; a `FileExistsError` is raised only when
the directory itself already exists and `exist_ok` is false. -/
def FS.mkdirParents (fs : FS) (p : FPath) (exist_ok : Bool) : Except String FS :=
  if fs.dirExists p ∧ exist_ok = false then .error ("FileExistsError")
  else .ok { fs with dirs := pathAncestors p ++ fs.dirs }

/-- Model of `shutil.copy2(source, dest)` under the guard `source.exists()`:
read the source file and write its content at the destination. -/
def FS.copy2 (fs : FS) (source dest : FPath) : FS :=
  match fs.readFile source with
  | some c => fs.writeFile dest c
  | none => fs

/-- A run state: the file system plus the console output printed so far. -/
structure World where
  fs : FS
  out : List String
deriving Repr

/-- Model of `print(s)`. -/
def World.print (w : World) (s : String) : World := { w with out := w.out ++ [s] }

/-- Lift a file-system update to a `World`. -/
def World.write (w : World) (p : FPath) (content : String) : World :=
  { w with fs := w.fs.writeFile p content }

/-! ## The initializer object (`WorkflowInitializer`) -/

/-- `WorkflowInitializer.__init__`: the resolved project path together
with `datetime.now().strftime("%Y-%m-%d")`, which we keep as an opaque
run-time string field. -/
structure WorkflowInitializer where
  project_path : FPath
  date : String

/-- `self.workflow_dir = self.project_path / ".claude-workflow"`. -/
def WorkflowInitializer.workflow_dir (self : WorkflowInitializer) : FPath :=
  self.project_path ++ [".claude-workflow"]

/-- The hardcoded directory manifest `dirs` of `create_directories`. -/
def dirsManifest : List String := [
  "01-requirements/raw-requirements",
  "01-requirements/functional-requirements",
  "01-requirements/user-stories",
  "02-planning",
  "03-design/architecture/adr",
  "03-design/technical-solutions",
  "03-design/api-design",
  "03-design/database-design",
  "04-implementation/implementation-plans",
  "04-implementation/code-mapping",
  "04-implementation/implementation-logs",
  "05-verification/test-plans",
  "05-verification/test-cases",
  "05-verification/verification-reports",
  "06-documentation/technical-docs",
  "06-documentation/user-guides",
  "06-documentation/api-docs",
  "07-platforms/gateway/requirements",
  "07-platforms/gateway/design",
  "07-platforms/gateway/implementation",
  "07-platforms/hmi/requirements",
  "07-platforms/hmi/design",
  "07-platforms/hmi/implementation",
  "07-platforms/configuration/requirements",
  "07-platforms/configuration/design",
  "07-platforms/configuration/implementation",
  "07-platforms/cloud/requirements",
  "07-platforms/cloud/design",
  "07-platforms/cloud/implementation",
  "07-platforms/app/requirements",
  "07-platforms/app/design",
  "07-platforms/app/implementation",
  "07-platforms/edge-ai/requirements",
  "07-platforms/edge-ai/design",
  "07-platforms/edge-ai/implementation",
  "07-platforms/scada/requirements",
  "07-platforms/scada/design",
  "07-platforms/scada/implementation",
  "07-platforms/web-editor/requirements",
  "07-platforms/web-editor/design",
  "07-platforms/web-editor/implementation",
  "parallel-tasks",
  "templates",
  "state-history"]

/-- `WorkflowInitializer.create_directories`: create every manifest
directory (with parents) under the workflow directory, `exist_ok=True`. -/
def create_directories (self : WorkflowInitializer) (w : World) : Except String World :=
  let w := w.print ("📁 Creating directory structure...")
  match dirsManifest.foldlM
      (fun fs dir_path => FS.mkdirParents fs (self.workflow_dir ++ splitPath dir_path) true)
      w.fs with
  | .error e => .error e
  | .ok fs => .ok (World.print { fs := fs, out := w.out } ("✅ Directory structure created"))

/-- The four top-level template filenames of `copy_templates`. -/
def templatesManifest : List String :=
  ["REQ-template.md", "FE-template.md", "SOL-template.md", "IMP-template.md"]

/-- The five state template paths of `copy_templates`. -/
def stateTemplatesManifest : List String := [
  "parallel-tasks/active-tasks-template.md",
  "parallel-tasks/task-dependencies-template.md",
  "dependency-backlog-template.md",
  "feature-to-code-map-template.md",
  "rt-matrix-template.md"]

/-- Source path of a top-level template under the template source. -/
def srcTop (template_source template : String) : FPath :=
  splitPath template_source ++ [".claude-workflow", "templates"] ++ [template]

/-- Destination path of a top-level template under the workflow dir. -/
def destTop (self : WorkflowInitializer) (template : String) : FPath :=
  self.workflow_dir ++ ["templates"] ++ [template]

/-- Source path of a state template under the template source. -/
def srcState (template_source template : String) : FPath :=
  splitPath template_source ++ [".claude-workflow"] ++ splitPath template

/-- Destination path of a state template: the `-template` suffix is
stripped from the filename. -/
def destState (self : WorkflowInitializer) (template : String) : FPath :=
  self.workflow_dir ++ splitPath (pyReplace template ("-template") (""))

/-- One iteration of the first loop of `copy_templates`. -/
def copyTopStep (self : WorkflowInitializer) (template_source : String)
    (w : World) (template : String) : World :=
  if w.fs.fileExists (srcTop template_source template) then
    (World.mk (w.fs.copy2 (srcTop template_source template) (destTop self template)) w.out).print
      ("  ✅ Copied " ++ template)
  else
    w.print ("  ⚠️  Template not found: " ++ template)

/-- One iteration of the second loop of `copy_templates`: note that a
missing state template is skipped silently (no `else` branch). -/
def copyStateStep (self : WorkflowInitializer) (template_source : String)
    (w : World) (template : String) : World :=
  if w.fs.fileExists (srcState template_source template) then
    (World.mk (w.fs.copy2 (srcState template_source template) (destState self template)) w.out).print
      ("  ✅ Copied " ++ template)
  else
    w

/-- `WorkflowInitializer.copy_templates`. -/
def copy_templates (self : WorkflowInitializer) (template_source : String) (w : World) : World :=
  let w := w.print ("📄 Copying template files...")
  let w := templatesManifest.foldl (copyTopStep self template_source) w
  let w := stateTemplatesManifest.foldl (copyStateStep self template_source) w
  w.print ("✅ Template files copied")

/-! ## `create_initial_config` -/

/-- The `platforms` table of `default_config`: fixed ids and display
names, with each `enabled` flag drawn from `config_data` with default
`False` (`config_data.get(id, False)`). -/
def defaultPlatforms (config_data : List (String × PyVal)) : List (String × String × PyVal) := [
  ("gateway", "网关端", dictGet config_data ("gateway") (.pybool false)),
  ("hmi", "HMI运行端", dictGet config_data ("hmi") (.pybool false)),
  ("configuration", "组态端", dictGet config_data ("configuration") (.pybool false)),
  ("cloud", "云平台端", dictGet config_data ("cloud") (.pybool false)),
  ("app", "APP端", dictGet config_data ("app") (.pybool false)),
  ("edge-ai", "边缘智能服务器", dictGet config_data ("edge-ai") (.pybool false)),
  ("scada", "Scada软件", dictGet config_data ("scada") (.pybool false)),
  ("web-editor", "Web可视化编辑器", dictGet config_data ("web-editor") (.pybool false))]

/-- The hand-built `yaml_content` string of `create_initial_config`:
header (project section), one `id`/`name`/`enabled` triplet per platform,
then the fixed workflow/documentation/traceability footer. -/
def configYamlContent (config_data : List (String × PyVal)) : String :=
  let name := pyStr (dictGet config_data ("project_name") (.pystr ("My Project")))
  let ptype := pyStr (dictGet config_data ("project_type") (.pystr ("application")))
  let version := "1.0.0"
  let yaml := "# Claude Code 工作流配置\n\nproject:\n  name: \"" ++ name ++ "\"\n  type: \"" ++ ptype ++ "\"\n  version: \"" ++ version ++ "\"\n\n# 支持的平台\nplatforms:\n"
  let yaml := (defaultPlatforms config_data).foldl
    (fun acc p =>
      acc ++ "  - id: " ++ p.1 ++ "\n    name: " ++ p.2.1 ++ "\n    enabled: " ++ pyLower (pyStr p.2.2) ++ "\n")
    yaml
  yaml ++ "\n# 工作流配置\nworkflow:\n  enforce_order: true\n  enable_parallel: true\n  max_parallel_tasks: 5\n  enable_dependency_ignore: true\n\n# 文档配置\ndocumentation:\n  auto_generate: true\n  format: markdown\n  include_api_docs: true\n\n# 追溯配置\ntraceability:\n  auto_update: true\n  mapping_granularity: function\n"

/-- `WorkflowInitializer.create_initial_config`: write the generated YAML
text to `config.yml` under the workflow directory. -/
def create_initial_config (self : WorkflowInitializer)
    (config_data : List (String × PyVal)) (w : World) : World :=
  let w := w.print ("⚙️  Creating configuration...")
  let w := w.write (self.workflow_dir ++ ["config.yml"]) (configYamlContent config_data)
  w.print ("✅ Configuration created")

/-! ## `create_initial_state` and `create_readme` -/

/-- Generated content of `current-phase.md`: interpolates the basename of
the project directory (`self.workflow_dir.parent.name`) and `self.date`. -/
def current_phase_text (self : WorkflowInitializer) : String :=
  "# 当前执行阶段\n\n## 项目信息\n- **项目名称**: " ++ pathName (parentPath self.workflow_dir) ++
  "\n- **当前阶段**: 阶段1 - 需求分析与规划\n- **开始日期**: " ++ self.date ++
  "\n- **整体进度**: 0%\n\n## 当前任务\n- **任务ID**: 待定\n- **任务名称**: 项目初始化\n- **状态**: 进行中\n- **当前步骤**: 配置项目\n- **完成度**: 10%\n\n## 任务堆栈\n### 主任务链\n1. ⏳ 项目初始化\n   - ✅ 创建目录结构\n   - ✅ 复制模板文件\n   - ⏳ 配置项目参数\n\n### 暂停的任务\n无\n\n### 待执行任务\n- [待执行] 收集第一个需求\n\n## 上下文信息\n- **相关平台**: 待配置\n- **相关文件**: .claude-workflow/config.yml\n- **依赖项**: 无\n- **阻塞项**: 无\n\n## 快速恢复命令\n\"继续配置项目参数\"\n"

/-- Generated content of `parallel-tasks/active-tasks.md`. -/
def active_tasks_text (self : WorkflowInitializer) : String :=
  "# 活跃并行任务列表\n\n更新时间: " ++ self.date ++
  " 00:00\n\n## 正在进行的功能\n\n### 项目初始化\n- **当前阶段**: 配置\n- **完成度**: 10%\n- **当前步骤**: 配置项目参数\n- **状态**: 🟢 正常进行\n- **依赖**: 无\n\n## 并行统计\n- **活跃功能数**: 0\n- **分布阶段**: 配置(1)\n- **预计完成日期**: 待定\n\n## 阻塞警告\n无\n"

/-- Generated content of `parallel-tasks/task-dependencies.md` (static). -/
def task_dependencies_text : String :=
  "# 任务依赖关系图\n\n## 依赖关系可视化\n\n```\n无依赖关系\n```\n\n## 依赖类型定义\n\n| 类型 | 符号 | 说明 | 处理方式 |\n|------|------|------|---------|\n| 强依赖 | ═══ | 必须等待依赖完成 | 串行开发 |\n| 弱依赖 | ━━ | 可以并行，使用忽略机制 | 并行 + mock |\n| 无依赖 | 无 | 完全独立 | 自由并行 |\n\n## 依赖忽略记录\n无\n\n## 依赖关系表\n| 当前功能 | 依赖功能 | 依赖类型 | 处理方式 | 状态 |\n"

/-- Generated content of `dependency-backlog.md` (static). -/
def dependency_backlog_text : String :=
  "# 依赖忽略跟踪表\n\n## 待补齐依赖项\n\n| ID | 当前模块 | 依赖模块 | 忽略内容 | Mock位置 | 补齐优先级 | 依赖状态 | 补齐期限 | 负责人 |\n\n## 依赖补齐记录\n无\n\n## 统计信息\n\n- **待补齐依赖数**: 0\n- **P0 优先级**: 0\n- **P1 优先级**: 0\n- **P2 优先级**: 0\n- **本月已补齐**: 0\n"

/-- Generated content of `feature-to-code-map.md` (static). -/
def feature_map_text : String :=
  "# 功能到代码映射表\n\n## 映射规则\n- 每个功能点对应具体的文件、类、函数\n- 记录行号范围以便快速定位\n- 包含依赖关系和影响范围\n\n## 映射表\n\n| 功能ID | 功能描述 | 平台 | 代码文件 | 类/组件 | 函数/方法 | 行号 | 依赖 | 状态 |\n\n## 依赖关系图\n无\n\n## 影响分析查询\n无\n\n## 反向映射 (代码 → 功能)\n\n| 代码文件 | 函数 | 实现功能 | 功能ID | 状态 |\n\n## 平台分布\n\n| 平台 | 功能数 | 已实现 | 进行中 | 待开始 |\n|------|--------|--------|--------|--------|\n| 网关 | 0 | 0 | 0 | 0 |\n| HMI | 0 | 0 | 0 | 0 |\n| 云平台 | 0 | 0 | 0 | 0 |\n| APP | 0 | 0 | 0 | 0 |\n| 边缘AI | 0 | 0 | 0 | 0 |\n| Scada | 0 | 0 | 0 | 0 |\n| Web编辑器 | 0 | 0 | 0 | 0 |\n\n## 统计信息\n\n- **总功能点数**: 0\n- **已实现**: 0 (0%)\n- **进行中**: 0 (0%)\n- **待开始**: 0 (0%)\n- **依赖忽略**: 0\n"

/-- Generated content of `rt-matrix.md`: interpolates `self.date` three
times. -/
def rt_matrix_text (self : WorkflowInitializer) : String :=
  "# 需求追溯矩阵 (Requirements Traceability Matrix)\n\n## 追溯概览\n- **总需求数**: 0\n- **已实现**: 0 (0%)\n- **已验证**: 0 (0%)\n- **未开始**: 0 (0%)\n\n## 前向追溯 (需求 → 交付物)\n\n| 需求ID | 需求描述 | 功能需求 | 技术方案 | 实现计划 | 代码模块 | 测试用例 | 状态 |\n\n## 后向追溯 (交付物 → 需求)\n\n| 代码文件 | 功能描述 | 关联需求 | 测试覆盖 | 状态 |\n\n## 影响分析矩阵\n\n| 需求变更 | 影响功能 | 影响代码 | 影响测试 | 影响平台 | 风险等级 |\n\n## 测试覆盖率\n无\n\n## 平台覆盖\n\n| 平台 | 需求数 | 已实现 | 已验证 | 覆盖率 |\n|------|--------|--------|--------|--------|\n| 网关 | 0 | 0 | 0 | 0% |\n| HMI | 0 | 0 | 0 | 0% |\n| 云平台 | 0 | 0 | 0 | 0% |\n| APP | 0 | 0 | 0 | 0% |\n| 边缘AI | 0 | 0 | 0 | 0% |\n| Scada | 0 | 0 | 0 | 0% |\n| Web编辑器 | 0 | 0 | 0 | 0% |\n\n## 缺口分析\n无\n\n## 追溯完整性检查\n待初始化\n\n## 变更历史\n\n| 日期 | 变更类型 | 影响范围 | 变更人 | 审批人 |\n| " ++ self.date ++
  " | 项目初始化 | 全部 | System | - |\n\n## 报告生成\n\n- **最后更新**: " ++ self.date ++
  "\n- **更新人**: System\n- **下次审查**: 待定\n"

/-- `WorkflowInitializer.create_initial_state`: write the six state
documents in order. -/
def create_initial_state (self : WorkflowInitializer) (w : World) : World :=
  let w := w.print ("📊 Creating initial state files...")
  let w := w.write (self.workflow_dir ++ ["current-phase.md"]) (current_phase_text self)
  let w := w.write (self.workflow_dir ++ ["parallel-tasks", "active-tasks.md"]) (active_tasks_text self)
  let w := w.write (self.workflow_dir ++ ["parallel-tasks", "task-dependencies.md"]) (task_dependencies_text)
  let w := w.write (self.workflow_dir ++ ["dependency-backlog.md"]) (dependency_backlog_text)
  let w := w.write (self.workflow_dir ++ ["feature-to-code-map.md"]) (feature_map_text)
  let w := w.write (self.workflow_dir ++ ["rt-matrix.md"]) (rt_matrix_text self)
  w.print ("✅ Initial state files created")

/-- Generated content of `README.md` (entirely static). -/
def readme_text : String :=
  "# Claude Code 工作流管理\n\n本目录使用 Claude Code 结构化研发工作流管理体系进行管理。\n\n## 目录结构\n\n```\n.claude-workflow/\n├── 01-requirements/        # 需求管理\n├── 02-planning/           # 计划管理\n├── 03-design/             # 设计管理\n├── 04-implementation/      # 实现管理\n├── 05-verification/       # 验证管理\n├── 06-documentation/      # 文档管理\n├── 07-platforms/          # 多平台管理\n├── parallel-tasks/        # 并行任务管理\n├── templates/             # 文档模板\n├── state-history/         # 状态历史\n├── config.yml             # 项目配置\n├── current-phase.md       # 当前阶段\n├── feature-to-code-map.md # 功能代码映射\n├── dependency-backlog.md  # 依赖跟踪\n└── rt-matrix.md           # 需求追溯矩阵\n```\n\n## 使用方式\n\n### 开始新功能\n```\n\"我们需要添加[新功能]\"\n→ workflow-orchestrator 自动激活\n→ 跟随引导完成需求收集、方案设计、实现...\n```\n\n### 查看当前状态\n```\n\"我上次做到哪了？\"\n→ workflow-coordinator 显示当前任务和进度\n```\n\n### 暂停和恢复\n```\n\"暂停当前任务，处理其他任务\"\n→ 任务切换和上下文保存\n\"继续之前的任务\"\n→ 恢复到之前的任务\n```\n\n## 工作流程\n\n1. **需求阶段** (requirement-manager)\n   - 创建原始需求 (REQ-{N})\n   - 分解功能需求 (FE-{N})\n\n2. **设计阶段** (solution-designer)\n   - 创建技术方案 (SOL-{N})\n   - 设计架构和接口\n\n3. **实现计划** (implementation-manager)\n   - 创建实现计划 (IMP-{N})\n   - 设计代码映射\n\n4. **代码实现** (implementation-manager)\n   - 按计划实现\n   - 记录代码映射\n\n5. **验证和文档** (verification-manager, documentation-generator)\n   - 测试验证\n   - 生成文档\n\n## 更多信息\n\n参考完整文档: `Claude-Code-Workflow-Design-v1.0.0.md`\n"

/-- `WorkflowInitializer.create_readme`: write the static README. -/
def create_readme (self : WorkflowInitializer) (w : World) : World :=
  w.write (self.workflow_dir ++ ["README.md"]) (readme_text)

/-! ## `initialize` and the `main`-level argument handling -/

/-- The `"=" * 60` separator line printed by `initialize`. -/
def sepLine : String := String.mk (List.replicate 60 ('='))

/-- The console notice printed when the template-copy step is skipped. -/
def skipTemplatesNotice : String := "⚠️  跳过模板复制（未指定模板源）"

/-- The banner printed at the start of `copy_templates`. -/
def templatesBanner : String := "📄 Copying template files..."

/-- `WorkflowInitializer.initialize`: the five steps in fixed order, with
the template-copy step guarded by Python truthiness of `template_source`
(`None` and the empty string both skip it with a console notice). -/
def initializeWorkflow (self : WorkflowInitializer)
    (config_data : Option (List (String × PyVal))) (template_source : Option String)
    (w : World) : Except String World :=
  let w := (((w.print sepLine).print ("🚀 Claude Code Workflow Initialization")).print sepLine).print ("")
  let cd := match config_data with | some d => d | none => []
  match create_directories self w with
  | .error e => .error e
  | .ok w1 =>
    let w2 := w1.print ("")
    let w3 := match template_source with
      | some s =>
        if s = "" then (w2.print skipTemplatesNotice).print ("")
        else (copy_templates self s w2).print ("")
      | none => (w2.print skipTemplatesNotice).print ("")
    let w4 := (create_initial_config self cd w3).print ("")
    let w5 := (create_initial_state self w4).print ("")
    let w6 := (create_readme self w5).print ("")
    let w7 := (((w6.print sepLine).print ("✅ 初始化完成！")).print sepLine).print ("")
    let w8 := (((w7.print ("📝 下一步:")).print ("1. 审查配置文件: .claude-workflow/config.yml")).print
      ("2. 启动 Claude Code")).print ("3. 开始第一个需求: '我们需要添加[新功能]'")
    .ok (w8.print (""))

/-- The platform identifiers recognized by `main` when parsing
`--platforms`. -/
def recognizedPlatforms : List String :=
  ["gateway", "hmi", "configuration", "cloud", "app", "edge-ai", "scada", "web-editor"]

/-- The `config_data` dictionary built by `main` from the CLI arguments:
`project_name` and `project_type` are always stored (a missing
`--project-name` stores `None`); when `--platforms` is truthy, the whole
argument is lowercased, split on commas, and each recognized token's flag
is set to `True`. -/
def buildConfigData (project_name : Option String) (project_type : String)
    (platformsArg : Option String) : List (String × PyVal) :=
  let config_data : List (String × PyVal) :=
    [("project_name", match project_name with | some s => .pystr s | none => .pynone),
     ("project_type", .pystr project_type)]
  match platformsArg with
  | some s =>
    if s = "" then config_data
    else
      (pySplit (pyLower s) (',')).foldl
        (fun cd platform =>
          if recognizedPlatforms.contains platform then dictSet cd platform (.pybool true) else cd)
        config_data
  | none => config_data

/-! ## Specification-side helpers used to state the claims -/

/-- `p` occurs as a contiguous substring of `s`. -/
def strOccurs (p s : String) : Prop := p.data <:+: s.data

instance (p s : String) : Decidable (strOccurs p s) := by
  unfold strOccurs; infer_instance

/-- The hardcoded id-to-display-name table of the platform section, as
the spec describes it. -/
def platformDisplayTable : List (String × String) := [
  ("gateway", "网关端"),
  ("hmi", "HMI运行端"),
  ("configuration", "组态端"),
  ("cloud", "云平台端"),
  ("app", "APP端"),
  ("edge-ai", "边缘智能服务器"),
  ("scada", "Scada软件"),
  ("web-editor", "Web可视化编辑器")]

/-- Display name of a platform id according to the hardcoded table. -/
def displayName (id : String) : String := ((platformDisplayTable.lookup id).getD (""))

/-- The boolean carried by a `PyVal`, when there is one. -/
def pyValBool : PyVal → Bool
  | .pybool b => b
  | _ => false

/-- Is this `PyVal` a genuine boolean? -/
def isBoolVal : PyVal → Bool
  | .pybool _ => true
  | _ => false

/-- The boolean platform flag stored for `id` in `config_data`
(default `False`). -/
def platformFlag (config_data : List (String × PyVal)) (id : String) : Bool :=
  pyValBool (dictGet config_data id (.pybool false))

/-- All platform entries of `config_data` are genuine booleans (the only
shape `main` ever produces). -/
def platformsWellTyped (config_data : List (String × PyVal)) : Bool :=
  recognizedPlatforms.all (fun id => isBoolVal (dictGet config_data id (.pybool false)))

/-- One rendered platform triplet, as the spec describes the table rows. -/
def specPlatformLine (id nm : String) (enabled : Bool) : String :=
  "  - id: " ++ id ++ "\n    name: " ++ nm ++ "\n    enabled: " ++
    (if enabled then "true" else "false") ++ "\n"

/-- The fixed header of `config.yml` up to and including `platforms:`,
with the three interpolated project fields. -/
def specConfigHeader (name ptype version : String) : String :=
  "# Claude Code 工作流配置\n\nproject:\n  name: \"" ++ name ++ "\"\n  type: \"" ++ ptype ++
    "\"\n  version: \"" ++ version ++ "\"\n\n# 支持的平台\nplatforms:\n"

/-- The fixed footer of `config.yml` after the platform table. -/
def specConfigFooter : String :=
  "\n# 工作流配置\nworkflow:\n  enforce_order: true\n  enable_parallel: true\n  max_parallel_tasks: 5\n  enable_dependency_ignore: true\n\n# 文档配置\ndocumentation:\n  auto_generate: true\n  format: markdown\n  include_api_docs: true\n\n# 追溯配置\ntraceability:\n  auto_update: true\n  mapping_granularity: function\n"

/-- Sequential composition of the five initialization steps at the
file-system level, in the order the spec gives: directories, templates
(only for a truthy source), config, state, README. -/
def stepsFS (self : WorkflowInitializer) (cd : List (String × PyVal))
    (ts : Option String) (fs : FS) : FS :=
  let fs1 := match create_directories self ⟨fs, []⟩ with
    | .ok w => w.fs
    | .error _ => fs
  let fs2 := match ts with
    | some s => if s = "" then fs1 else (copy_templates self s ⟨fs1, []⟩).fs
    | none => fs1
  let fs3 := (create_initial_config self cd ⟨fs2, []⟩).fs
  let fs4 := (create_initial_state self ⟨fs3, []⟩).fs
  (create_readme self ⟨fs4, []⟩).fs

/-- A small concrete initializer used by the witnesses. -/
def initA : WorkflowInitializer := ⟨["home", "proj"], "2026-10-12"⟩

/-- An empty starting world used by the witnesses. -/
def worldA : World := ⟨⟨[], []⟩, []⟩


/-! ## Basic lemmas about the model -/

lemma readFile_writeFile_self (fs : FS) (p : FPath) (c : String) :
    (fs.writeFile p c).readFile p = some c := by
  simp [FS.writeFile, FS.readFile, List.lookup]

lemma readFile_writeFile_ne (fs : FS) (p q : FPath) (c : String) (h : q ≠ p) :
    (fs.writeFile p c).readFile q = fs.readFile q := by
  simp [FS.writeFile, FS.readFile, List.lookup, beq_eq_false_iff_ne.mpr h]

lemma append_ne_append_of_ne (l : FPath) {a b : FPath} (h : a ≠ b) : l ++ a ≠ l ++ b :=
  fun hh => h (List.append_cancel_left hh)

lemma writeFile_dirs (fs : FS) (p : FPath) (c : String) : (fs.writeFile p c).dirs = fs.dirs := rfl

lemma copy2_dirs (fs : FS) (s d : FPath) : (fs.copy2 s d).dirs = fs.dirs := by
  unfold FS.copy2
  cases fs.readFile s <;> rfl

lemma copy2_readFile_ne (fs : FS) (s d q : FPath) (h : q ≠ d) :
    (fs.copy2 s d).readFile q = fs.readFile q := by
  unfold FS.copy2
  cases hs : fs.readFile s
  · rfl
  · exact readFile_writeFile_ne fs d q _ h

lemma print_fs (w : World) (s : String) : (w.print s).fs = w.fs := rfl

lemma print_out (w : World) (s : String) : (w.print s).out = w.out ++ [s] := rfl

lemma mem_out_print (w : World) (s x : String) (h : x ∈ w.out) : x ∈ (w.print s).out := by
  simp [World.print]
  exact Or.inl h

/-! ## Lemmas about `create_directories` -/

lemma mkdirParents_true (fs : FS) (p : FPath) :
    fs.mkdirParents p true = .ok { fs with dirs := pathAncestors p ++ fs.dirs } := by
  simp [FS.mkdirParents]

/-- The file-system result of the directory-creation loop. -/
def mkdirFoldFS (self : WorkflowInitializer) (l : List String) (fs : FS) : FS :=
  l.foldl (fun fs d => { fs with dirs := pathAncestors (self.workflow_dir ++ splitPath d) ++ fs.dirs }) fs

lemma exceptBind_ok {α β ε : Type} (x : α) (f : α → Except ε β) :
    (Except.ok x : Except ε α) >>= f = f x := rfl

lemma mkdirFold_ok (self : WorkflowInitializer) (l : List String) (fs : FS) :
    l.foldlM (fun fs dir_path => FS.mkdirParents fs (self.workflow_dir ++ splitPath dir_path) true) fs
      = .ok (mkdirFoldFS self l fs) := by
  induction l generalizing fs with
  | nil => rfl
  | cons d rest ih =>
    rw [List.foldlM_cons, mkdirParents_true, exceptBind_ok]
    exact ih _

lemma create_directories_eq (self : WorkflowInitializer) (w : World) :
    create_directories self w =
      .ok ⟨mkdirFoldFS self dirsManifest w.fs,
        w.out ++ ["📁 Creating directory structure...", "✅ Directory structure created"]⟩ := by
  unfold create_directories
  simp [mkdirFold_ok, World.print]

lemma mkdirFoldFS_files (self : WorkflowInitializer) (l : List String) (fs : FS) :
    (mkdirFoldFS self l fs).files = fs.files := by
  induction l generalizing fs with
  | nil => rfl
  | cons d rest ih => simp [mkdirFoldFS, List.foldl_cons] at ih ⊢; exact ih _

lemma mkdirFoldFS_dirs_mono (self : WorkflowInitializer) (l : List String) (fs : FS)
    (q : FPath) (h : q ∈ fs.dirs) : q ∈ (mkdirFoldFS self l fs).dirs := by
  induction l generalizing fs with
  | nil => exact h
  | cons d rest ih =>
    simp only [mkdirFoldFS, List.foldl_cons] at ih ⊢
    exact ih _ (by simp; exact Or.inr h)

lemma self_mem_pathAncestors (p : FPath) (h : p ≠ []) : p ∈ pathAncestors p := by
  unfold pathAncestors
  have hl : 0 < p.length := List.length_pos.mpr h
  refine List.mem_map.mpr ⟨p.length - 1, ?_, ?_⟩
  · simp [List.mem_range]; omega
  · have : p.length - 1 + 1 = p.length := by omega
    rw [this, List.take_length]

lemma mkdirFoldFS_dirs_mem (self : WorkflowInitializer) (l : List String) (fs : FS)
    (d : String) (h : d ∈ l) :
    (self.workflow_dir ++ splitPath d) ∈ (mkdirFoldFS self l fs).dirs := by
  induction l generalizing fs with
  | nil => cases h
  | cons e rest ih =>
    simp only [mkdirFoldFS, List.foldl_cons] at ih ⊢
    rcases List.mem_cons.mp h with he | hrest
    · subst he
      refine mkdirFoldFS_dirs_mono self rest _ _ ?_
      simp
      exact Or.inl (self_mem_pathAncestors _ (by simp [WorkflowInitializer.workflow_dir]))
    · exact ih _ hrest

/-! ## Lemmas about `copy_templates` -/

lemma copyTopStep_dirs (self : WorkflowInitializer) (ts : String) (w : World) (t : String) :
    (copyTopStep self ts w t).fs.dirs = w.fs.dirs := by
  unfold copyTopStep
  split
  · simp [World.print, copy2_dirs]
  · rfl

lemma copyStateStep_dirs (self : WorkflowInitializer) (ts : String) (w : World) (t : String) :
    (copyStateStep self ts w t).fs.dirs = w.fs.dirs := by
  unfold copyStateStep
  split
  · simp [World.print, copy2_dirs]
  · rfl

lemma foldl_copyTop_dirs (self : WorkflowInitializer) (ts : String) (l : List String) (w : World) :
    ((l.foldl (copyTopStep self ts) w).fs.dirs) = w.fs.dirs := by
  induction l generalizing w with
  | nil => rfl
  | cons t rest ih => rw [List.foldl_cons, ih, copyTopStep_dirs]

lemma foldl_copyState_dirs (self : WorkflowInitializer) (ts : String) (l : List String) (w : World) :
    ((l.foldl (copyStateStep self ts) w).fs.dirs) = w.fs.dirs := by
  induction l generalizing w with
  | nil => rfl
  | cons t rest ih => rw [List.foldl_cons, ih, copyStateStep_dirs]

lemma copy_templates_dirs (self : WorkflowInitializer) (ts : String) (w : World) :
    (copy_templates self ts w).fs.dirs = w.fs.dirs := by
  unfold copy_templates
  simp only [print_fs, foldl_copyState_dirs, foldl_copyTop_dirs]

lemma copyTopStep_out_mono (self : WorkflowInitializer) (ts : String) (w : World) (t x : String)
    (h : x ∈ w.out) : x ∈ (copyTopStep self ts w t).out := by
  unfold copyTopStep
  split
  · exact mem_out_print _ _ _ h
  · exact mem_out_print _ _ _ h

lemma copyStateStep_out_mono (self : WorkflowInitializer) (ts : String) (w : World) (t x : String)
    (h : x ∈ w.out) : x ∈ (copyStateStep self ts w t).out := by
  unfold copyStateStep
  split
  · exact mem_out_print _ _ _ h
  · exact h

lemma foldl_copyTop_out_mono (self : WorkflowInitializer) (ts : String) (l : List String)
    (w : World) (x : String) (h : x ∈ w.out) : x ∈ (l.foldl (copyTopStep self ts) w).out := by
  induction l generalizing w with
  | nil => exact h
  | cons t rest ih => exact ih _ (copyTopStep_out_mono self ts w t x h)

lemma foldl_copyState_out_mono (self : WorkflowInitializer) (ts : String) (l : List String)
    (w : World) (x : String) (h : x ∈ w.out) : x ∈ (l.foldl (copyStateStep self ts) w).out := by
  induction l generalizing w with
  | nil => exact h
  | cons t rest ih => exact ih _ (copyStateStep_out_mono self ts w t x h)

lemma copy_templates_out_mono (self : WorkflowInitializer) (ts : String) (w : World) (x : String)
    (h : x ∈ w.out) : x ∈ (copy_templates self ts w).out := by
  unfold copy_templates
  refine mem_out_print _ _ _ ?_
  exact foldl_copyState_out_mono _ _ _ _ _ (foldl_copyTop_out_mono _ _ _ _ _ (mem_out_print _ _ _ h))

lemma copyTopStep_readFile_ne (self : WorkflowInitializer) (ts : String) (w : World)
    (t : String) (p : FPath) (h : p ≠ destTop self t) :
    (copyTopStep self ts w t).fs.readFile p = w.fs.readFile p := by
  unfold copyTopStep
  split
  · simp only [print_fs]
    exact copy2_readFile_ne _ _ _ _ h
  · rfl

lemma copyStateStep_readFile_ne (self : WorkflowInitializer) (ts : String) (w : World)
    (t : String) (p : FPath) (h : p ≠ destState self t) :
    (copyStateStep self ts w t).fs.readFile p = w.fs.readFile p := by
  unfold copyStateStep
  split
  · simp only [print_fs]
    exact copy2_readFile_ne _ _ _ _ h
  · rfl

lemma foldl_copyTop_readFile_ne (self : WorkflowInitializer) (ts : String) (l : List String)
    (w : World) (p : FPath) (h : ∀ t ∈ l, p ≠ destTop self t) :
    (l.foldl (copyTopStep self ts) w).fs.readFile p = w.fs.readFile p := by
  induction l generalizing w with
  | nil => rfl
  | cons t rest ih =>
    rw [List.foldl_cons, ih _ (fun u hu => h u (List.mem_cons_of_mem t hu)),
      copyTopStep_readFile_ne self ts w t p (h t (List.mem_cons_self t rest))]

lemma foldl_copyState_readFile_ne (self : WorkflowInitializer) (ts : String) (l : List String)
    (w : World) (p : FPath) (h : ∀ t ∈ l, p ≠ destState self t) :
    (l.foldl (copyStateStep self ts) w).fs.readFile p = w.fs.readFile p := by
  induction l generalizing w with
  | nil => rfl
  | cons t rest ih =>
    rw [List.foldl_cons, ih _ (fun u hu => h u (List.mem_cons_of_mem t hu)),
      copyStateStep_readFile_ne self ts w t p (h t (List.mem_cons_self t rest))]

lemma copy_templates_readFile_ne (self : WorkflowInitializer) (ts : String) (w : World)
    (p : FPath) (h1 : ∀ t ∈ templatesManifest, p ≠ destTop self t)
    (h2 : ∀ t ∈ stateTemplatesManifest, p ≠ destState self t) :
    (copy_templates self ts w).fs.readFile p = w.fs.readFile p := by
  unfold copy_templates
  simp only [print_fs]
  rw [foldl_copyState_readFile_ne _ _ _ _ _ h2, foldl_copyTop_readFile_ne _ _ _ _ _ h1, print_fs]

lemma destTop_under_workflow (self : WorkflowInitializer) (t : String) :
    self.workflow_dir <+: destTop self t := by
  refine ⟨["templates"] ++ [t], ?_⟩
  simp [destTop]

lemma destState_under_workflow (self : WorkflowInitializer) (t : String) :
    self.workflow_dir <+: destState self t := by
  exact ⟨splitPath (pyReplace t ("-template") ("")), rfl⟩

/-- Every file write of `copy_templates` lands under the workflow
directory: any path outside it is untouched. -/
lemma copy_templates_writes_under_workflow (self : WorkflowInitializer) (ts : String)
    (w : World) (p : FPath) (h : ¬ self.workflow_dir <+: p) :
    (copy_templates self ts w).fs.readFile p = w.fs.readFile p := by
  refine copy_templates_readFile_ne self ts w p ?_ ?_
  · intro t _ he
    exact h (he ▸ destTop_under_workflow self t)
  · intro t _ he
    exact h (he ▸ destState_under_workflow self t)

/-! ## Lemmas about the config, state and README steps -/

lemma create_initial_config_fs (self : WorkflowInitializer) (cd : List (String × PyVal)) (w : World) :
    (create_initial_config self cd w).fs
      = w.fs.writeFile (self.workflow_dir ++ ["config.yml"]) (configYamlContent cd) := rfl

lemma create_initial_config_out (self : WorkflowInitializer) (cd : List (String × PyVal)) (w : World) :
    (create_initial_config self cd w).out
      = w.out ++ ["⚙️  Creating configuration...", "✅ Configuration created"] := by
  simp [create_initial_config, World.print, World.write]

lemma create_readme_fs (self : WorkflowInitializer) (w : World) :
    (create_readme self w).fs
      = w.fs.writeFile (self.workflow_dir ++ ["README.md"]) (readme_text) := rfl

lemma create_readme_out (self : WorkflowInitializer) (w : World) :
    (create_readme self w).out = w.out := rfl

lemma create_initial_state_readFile_cp (self : WorkflowInitializer) (w : World) :
    (create_initial_state self w).fs.readFile (self.workflow_dir ++ ["current-phase.md"])
      = some (current_phase_text self) := by
  unfold create_initial_state
  simp only [World.write, World.print]
  rw [readFile_writeFile_ne _ _ _ _ (append_ne_append_of_ne _ (by decide)),
    readFile_writeFile_ne _ _ _ _ (append_ne_append_of_ne _ (by decide)),
    readFile_writeFile_ne _ _ _ _ (append_ne_append_of_ne _ (by decide)),
    readFile_writeFile_ne _ _ _ _ (append_ne_append_of_ne _ (by decide)),
    readFile_writeFile_ne _ _ _ _ (append_ne_append_of_ne _ (by decide)),
    readFile_writeFile_self]

lemma create_initial_state_out (self : WorkflowInitializer) (w : World) :
    (create_initial_state self w).out
      = w.out ++ ["📊 Creating initial state files...", "✅ Initial state files created"] := by
  simp [create_initial_state, World.write, World.print]

/-! ## Lemmas about substring occurrence -/

lemma strOccurs_appendMid (a p b : String) : strOccurs p (a ++ p ++ b) :=
  ⟨a.data, b.data, by simp [String.data_append]⟩

lemma strOccurs_left (a : String) {p s : String} (h : strOccurs p s) : strOccurs p (a ++ s) := by
  obtain ⟨l, r, hh⟩ := h
  exact ⟨a.data ++ l, r, by simp [String.data_append, ← hh]⟩

lemma strOccurs_right (b : String) {p s : String} (h : strOccurs p s) : strOccurs p (s ++ b) := by
  obtain ⟨l, r, hh⟩ := h
  exact ⟨l, r ++ b.data, by simp [String.data_append, ← hh]⟩

/-! ## Directory claims (C1, C5) -/

lemma dirExists_of_mem (fs : FS) (q : FPath) (h : q ∈ fs.dirs) : fs.dirExists q = true := by
  simp [FS.dirExists, List.contains]
  exact h

lemma print_dirs (w : World) (s : String) : (w.print s).fs.dirs = w.fs.dirs := rfl

lemma create_initial_config_dirs (self : WorkflowInitializer) (cd : List (String × PyVal))
    (w : World) : (create_initial_config self cd w).fs.dirs = w.fs.dirs := rfl

lemma create_initial_state_dirs (self : WorkflowInitializer) (w : World) :
    (create_initial_state self w).fs.dirs = w.fs.dirs := rfl

lemma create_readme_dirs (self : WorkflowInitializer) (w : World) :
    (create_readme self w).fs.dirs = w.fs.dirs := rfl

lemma initializeWorkflow_fs_dirs (self : WorkflowInitializer)
    (cd : Option (List (String × PyVal))) (ts : Option String) (w w' : World)
    (hrun : initializeWorkflow self cd ts w = .ok w') :
    w'.fs.dirs = (mkdirFoldFS self dirsManifest w.fs).dirs := by
  unfold initializeWorkflow at hrun
  simp only [create_directories_eq, Except.ok.injEq] at hrun
  cases ts with
  | none =>
    subst hrun
    rfl
  | some s =>
    by_cases hs : s = ""
    · simp only [hs, if_pos rfl] at hrun
      subst hrun
      rfl
    · simp only [if_neg hs] at hrun
      subst hrun
      simp only [print_dirs, create_initial_state_dirs, create_initial_config_dirs,
        create_readme_dirs, copy_templates_dirs, print_fs]

/-- The world produced by a complete concrete run, used by witnesses. -/
def runA : World :=
  match initializeWorkflow initA none none worldA with
  | .ok w => w
  | .error _ => worldA

/-- C1 (amended): for any project path, after `initialize()` completes,
every directory in the hardcoded manifest exists under
`<path>/.claude-workflow`; the manifest contains exactly 44 directory
paths (not 40). -/
theorem C1_manifest_dirs_exist_after_initialize (self : WorkflowInitializer)
    (config_data : Option (List (String × PyVal))) (template_source : Option String)
    (w w' : World) (d : String)
    (hrun : initializeWorkflow self config_data template_source w = .ok w')
    (hd : d ∈ dirsManifest) :
    w'.fs.dirExists (self.workflow_dir ++ splitPath d) = true ∧ dirsManifest.length = 44 := by
  constructor
  · have hdirs := initializeWorkflow_fs_dirs self config_data template_source w w' hrun
    refine dirExists_of_mem _ _ ?_
    rw [hdirs]
    exact mkdirFoldFS_dirs_mem self dirsManifest w.fs d hd
  · rfl

/-- C1 counterexample: the hardcoded directory manifest does not contain
40 paths (it contains 44), so the claim as stated is false. -/
theorem C1_counterexample_manifest_length : (dirsManifest.length = 40) = False :=
  eq_false (by decide)

/-- C1 witness: the theorem applied to a concrete run. -/
theorem C1_witness :
    runA.fs.dirExists (initA.workflow_dir ++ splitPath ("02-planning")) = true
      ∧ dirsManifest.length = 44 :=
  C1_manifest_dirs_exist_after_initialize initA none none worldA runA ("02-planning") rfl
    (by decide)

/-- C5: running `initialize()` a second time raises no error in the
directory-creation step: after a completed run, every manifest directory
already exists, re-creating it with `exist_ok=True` succeeds, and the
whole `create_directories` step succeeds. -/
theorem C5_second_run_directory_creation_succeeds (self : WorkflowInitializer)
    (config_data : Option (List (String × PyVal))) (template_source : Option String)
    (w w' : World) (d : String)
    (hrun : initializeWorkflow self config_data template_source w = .ok w')
    (hd : d ∈ dirsManifest) :
    w'.fs.dirExists (self.workflow_dir ++ splitPath d) = true
      ∧ (w'.fs.mkdirParents (self.workflow_dir ++ splitPath d) true).isOk = true
      ∧ (create_directories self w').isOk = true := by
  refine ⟨?_, ?_, ?_⟩
  · have hdirs := initializeWorkflow_fs_dirs self config_data template_source w w' hrun
    refine dirExists_of_mem _ _ ?_
    rw [hdirs]
    exact mkdirFoldFS_dirs_mem self dirsManifest w.fs d hd
  · rw [mkdirParents_true]
    rfl
  · rw [create_directories_eq]
    rfl

/-- C5 witness: the theorem applied to a concrete run. -/
theorem C5_witness :
    runA.fs.dirExists (initA.workflow_dir ++ splitPath ("parallel-tasks")) = true
      ∧ (runA.fs.mkdirParents (initA.workflow_dir ++ splitPath ("parallel-tasks")) true).isOk = true
      ∧ (create_directories initA runA).isOk = true :=
  C5_second_run_directory_creation_succeeds initA none none worldA runA ("parallel-tasks") rfl
    (by decide)

/-! ## The config characterization (C7 machinery) -/

lemma pyLower_pyStr_bool (b : Bool) :
    pyLower (pyStr (.pybool b)) = if b then "true" else "false" := by
  cases b <;> rfl

lemma isBoolVal_exists (v : PyVal) (h : isBoolVal v = true) : ∃ b, v = .pybool b := by
  cases v <;> simp_all [isBoolVal]

/-- The generated `config.yml` text is exactly: the fixed header with the
three project fields, the eight platform triplets in the fixed order with
display names from the hardcoded table and lowercase boolean flags, then
the fixed footer. -/
lemma configYamlContent_characterization (cd : List (String × PyVal))
    (h : platformsWellTyped cd = true) :
    configYamlContent cd =
      specConfigHeader (pyStr (dictGet cd ("project_name") (.pystr ("My Project"))))
        (pyStr (dictGet cd ("project_type") (.pystr ("application")))) ("1.0.0")
      ++ specPlatformLine ("gateway") (displayName ("gateway")) (platformFlag cd ("gateway"))
      ++ specPlatformLine ("hmi") (displayName ("hmi")) (platformFlag cd ("hmi"))
      ++ specPlatformLine ("configuration") (displayName ("configuration")) (platformFlag cd ("configuration"))
      ++ specPlatformLine ("cloud") (displayName ("cloud")) (platformFlag cd ("cloud"))
      ++ specPlatformLine ("app") (displayName ("app")) (platformFlag cd ("app"))
      ++ specPlatformLine ("edge-ai") (displayName ("edge-ai")) (platformFlag cd ("edge-ai"))
      ++ specPlatformLine ("scada") (displayName ("scada")) (platformFlag cd ("scada"))
      ++ specPlatformLine ("web-editor") (displayName ("web-editor")) (platformFlag cd ("web-editor"))
      ++ specConfigFooter := by
  simp only [platformsWellTyped, recognizedPlatforms, List.all_cons, List.all_nil,
    Bool.and_eq_true, and_true] at h
  obtain ⟨h1, h2, h3, h4, h5, h6, h7, h8⟩ := h
  obtain ⟨b1, e1⟩ := isBoolVal_exists _ h1
  obtain ⟨b2, e2⟩ := isBoolVal_exists _ h2
  obtain ⟨b3, e3⟩ := isBoolVal_exists _ h3
  obtain ⟨b4, e4⟩ := isBoolVal_exists _ h4
  obtain ⟨b5, e5⟩ := isBoolVal_exists _ h5
  obtain ⟨b6, e6⟩ := isBoolVal_exists _ h6
  obtain ⟨b7, e7⟩ := isBoolVal_exists _ h7
  obtain ⟨b8, e8⟩ := isBoolVal_exists _ h8
  simp only [configYamlContent, defaultPlatforms, List.foldl_cons, List.foldl_nil,
    e1, e2, e3, e4, e5, e6, e7, e8, pyLower_pyStr_bool, specPlatformLine, specConfigHeader,
    specConfigFooter, platformFlag, pyValBool,
    show displayName ("gateway") = "网关端" from rfl,
    show displayName ("hmi") = "HMI运行端" from rfl,
    show displayName ("configuration") = "组态端" from rfl,
    show displayName ("cloud") = "云平台端" from rfl,
    show displayName ("app") = "APP端" from rfl,
    show displayName ("edge-ai") = "边缘智能服务器" from rfl,
    show displayName ("scada") = "Scada软件" from rfl,
    show displayName ("web-editor") = "Web可视化编辑器" from rfl,
    String.append_assoc]

/-! ## Dictionary lemmas for the `--platforms` parsing -/

lemma lookup_map_replace (rest : List (String × PyVal)) (k q : String) (v : PyVal)
    (h : q ≠ k) :
    List.lookup q (rest.map (fun e => if e.1 = k then (k, v) else e)) = List.lookup q rest := by
  induction rest with
  | nil => rfl
  | cons e tail ih =>
    obtain ⟨a, b⟩ := e
    by_cases hak : a = k
    · subst hak
      have he : (if ((a, b) : String × PyVal).1 = a then (a, v) else (a, b)) = (a, v) :=
        if_pos rfl
      simp only [List.map_cons, he]
      simp [List.lookup, beq_eq_false_iff_ne.mpr h, ih]
    · simp only [List.map_cons, if_neg (by simpa using hak)]
      cases hqa : (q == a) <;> simp [List.lookup, hqa, ih]

lemma lookup_append_single (rest : List (String × PyVal)) (k q : String) (v : PyVal)
    (h : q ≠ k) :
    List.lookup q (rest ++ [(k, v)]) = List.lookup q rest := by
  induction rest with
  | nil => simp [List.lookup, beq_eq_false_iff_ne.mpr h]
  | cons e tail ih =>
    obtain ⟨a, b⟩ := e
    cases hqa : (q == a) <;> simp [List.lookup, hqa, ih]

lemma lookup_dictSet_ne (d : List (String × PyVal)) (k q : String) (v : PyVal) (h : q ≠ k) :
    (dictSet d k v).lookup q = d.lookup q := by
  unfold dictSet
  split
  · exact lookup_map_replace d k q v h
  · exact lookup_append_single d k q v h

lemma foldl_dictSet_lookup_ne (l : List String) (cd : List (String × PyVal)) (q : String)
    (h : q ∉ l) :
    (l.foldl (fun cd platform =>
        if recognizedPlatforms.contains platform then dictSet cd platform (.pybool true) else cd)
      cd).lookup q = cd.lookup q := by
  induction l generalizing cd with
  | nil => rfl
  | cons tok rest ih =>
    rw [List.foldl_cons, ih _ (fun hc => h (List.mem_cons_of_mem tok hc))]
    split
    · exact lookup_dictSet_ne cd tok q _ (fun he => h (he ▸ List.mem_cons_self tok rest))
    · rfl

lemma lookup_base_none (q : String) (v1 v2 : PyVal) (hpn : q ≠ "project_name")
    (hpt : q ≠ "project_type") :
    List.lookup q [("project_name", v1), ("project_type", v2)] = none := by
  simp [List.lookup, beq_eq_false_iff_ne.mpr hpn, beq_eq_false_iff_ne.mpr hpt]

lemma strOccurs_appendEnd (a p : String) : strOccurs p (a ++ p) :=
  ⟨a.data, [], by simp [String.data_append]⟩

/-! ## Config claims (C7, C2, C3, C10) -/

/-- C7: for every `configData` whose platform entries are booleans, the
generated `config.yml` text is exactly the fixed header (project fields
interpolated, version fixed at 1.0.0), a table of exactly the 8 fixed
platform entries in order, each an id/name/enabled triplet with the name
from the hardcoded table and enabled the lowercase boolean flag, then the
fixed comment/footer sections. -/
theorem C7_config_layout_fixed (cd : List (String × PyVal))
    (h : platformsWellTyped cd = true) :
    configYamlContent cd =
      specConfigHeader (pyStr (dictGet cd ("project_name") (.pystr ("My Project"))))
        (pyStr (dictGet cd ("project_type") (.pystr ("application")))) ("1.0.0")
      ++ specPlatformLine ("gateway") (displayName ("gateway")) (platformFlag cd ("gateway"))
      ++ specPlatformLine ("hmi") (displayName ("hmi")) (platformFlag cd ("hmi"))
      ++ specPlatformLine ("configuration") (displayName ("configuration")) (platformFlag cd ("configuration"))
      ++ specPlatformLine ("cloud") (displayName ("cloud")) (platformFlag cd ("cloud"))
      ++ specPlatformLine ("app") (displayName ("app")) (platformFlag cd ("app"))
      ++ specPlatformLine ("edge-ai") (displayName ("edge-ai")) (platformFlag cd ("edge-ai"))
      ++ specPlatformLine ("scada") (displayName ("scada")) (platformFlag cd ("scada"))
      ++ specPlatformLine ("web-editor") (displayName ("web-editor")) (platformFlag cd ("web-editor"))
      ++ specConfigFooter :=
  configYamlContent_characterization cd h

/-- C7 witness: the characterization at the empty `configData`. -/
theorem C7_witness :
    configYamlContent [] =
      specConfigHeader (pyStr (dictGet [] ("project_name") (.pystr ("My Project"))))
        (pyStr (dictGet [] ("project_type") (.pystr ("application")))) ("1.0.0")
      ++ specPlatformLine ("gateway") (displayName ("gateway")) (platformFlag [] ("gateway"))
      ++ specPlatformLine ("hmi") (displayName ("hmi")) (platformFlag [] ("hmi"))
      ++ specPlatformLine ("configuration") (displayName ("configuration")) (platformFlag [] ("configuration"))
      ++ specPlatformLine ("cloud") (displayName ("cloud")) (platformFlag [] ("cloud"))
      ++ specPlatformLine ("app") (displayName ("app")) (platformFlag [] ("app"))
      ++ specPlatformLine ("edge-ai") (displayName ("edge-ai")) (platformFlag [] ("edge-ai"))
      ++ specPlatformLine ("scada") (displayName ("scada")) (platformFlag [] ("scada"))
      ++ specPlatformLine ("web-editor") (displayName ("web-editor")) (platformFlag [] ("web-editor"))
      ++ specConfigFooter :=
  C7_config_layout_fixed [] rfl

/-- C2 (code bug evidence): when the CLI is run without `--project-name`,
`main` stores `None` under `project_name`, `dict.get` returns that stored
`None` rather than the `"My Project"` default, and the generated config
text carries `name: "None"`; `"None"` is not the claimed default. -/
theorem C2_default_name_renders_None :
    pyStr (dictGet (buildConfigData none ("application") none) ("project_name")
        (.pystr ("My Project"))) = "None"
    ∧ strOccurs ("name: \"None\"")
        (configYamlContent (buildConfigData none ("application") none))
    ∧ (("None" : String) = "My Project") = False := by
  refine ⟨rfl, ?_, eq_false (by decide)⟩
  rw [configYamlContent_characterization (buildConfigData none ("application") none) rfl]
  apply strOccurs_right
  apply strOccurs_right
  apply strOccurs_right
  apply strOccurs_right
  apply strOccurs_right
  apply strOccurs_right
  apply strOccurs_right
  apply strOccurs_right
  apply strOccurs_right
  rw [show specConfigHeader (pyStr (dictGet (buildConfigData none ("application") none)
      ("project_name") (.pystr ("My Project"))))
      (pyStr (dictGet (buildConfigData none ("application") none)
      ("project_type") (.pystr ("application")))) ("1.0.0")
    = "# Claude Code 工作流配置\n\nproject:\n  " ++ "name: \"None\"" ++
      "\n  type: \"application\"\n  version: \"1.0.0\"\n\n# 支持的平台\nplatforms:\n" from rfl]
  exact strOccurs_appendMid _ _ _

/-- C3: with `--platforms gateway,hmi`, every recognized platform flag in
the generated configuration is `true` exactly for `gateway` and `hmi`,
and the rendered `config.yml` carries the corresponding triplet
(`enabled: true` for those two, `enabled: false` for the other six). -/
theorem C3_platforms_gateway_hmi (pn : Option String) (pt : String) (pid : String)
    (h : pid ∈ recognizedPlatforms) :
    platformFlag (buildConfigData pn pt (some ("gateway,hmi"))) pid
        = (pid == "gateway" || pid == "hmi")
    ∧ strOccurs
        (specPlatformLine pid (displayName pid) (pid == "gateway" || pid == "hmi"))
        (configYamlContent (buildConfigData pn pt (some ("gateway,hmi")))) := by
  have hchar :=
    configYamlContent_characterization (buildConfigData pn pt (some ("gateway,hmi"))) rfl
  simp only [recognizedPlatforms, List.mem_cons, List.not_mem_nil, or_false] at h
  rcases h with rfl | rfl | rfl | rfl | rfl | rfl | rfl | rfl
  · refine ⟨rfl, ?_⟩
    rw [hchar]
    rw [show platformFlag (buildConfigData pn pt (some ("gateway,hmi"))) ("gateway") = true from rfl,
      show platformFlag (buildConfigData pn pt (some ("gateway,hmi"))) ("hmi") = true from rfl,
      show platformFlag (buildConfigData pn pt (some ("gateway,hmi"))) ("configuration") = false from rfl,
      show platformFlag (buildConfigData pn pt (some ("gateway,hmi"))) ("cloud") = false from rfl,
      show platformFlag (buildConfigData pn pt (some ("gateway,hmi"))) ("app") = false from rfl,
      show platformFlag (buildConfigData pn pt (some ("gateway,hmi"))) ("edge-ai") = false from rfl,
      show platformFlag (buildConfigData pn pt (some ("gateway,hmi"))) ("scada") = false from rfl,
      show platformFlag (buildConfigData pn pt (some ("gateway,hmi"))) ("web-editor") = false from rfl]
    rw [show (("gateway" == "gateway") || ("gateway" == "hmi")) = true from rfl]
    apply strOccurs_right
    apply strOccurs_right
    apply strOccurs_right
    apply strOccurs_right
    apply strOccurs_right
    apply strOccurs_right
    apply strOccurs_right
    apply strOccurs_right
    exact strOccurs_appendEnd _ _
  · refine ⟨rfl, ?_⟩
    rw [hchar]
    rw [show platformFlag (buildConfigData pn pt (some ("gateway,hmi"))) ("gateway") = true from rfl,
      show platformFlag (buildConfigData pn pt (some ("gateway,hmi"))) ("hmi") = true from rfl,
      show platformFlag (buildConfigData pn pt (some ("gateway,hmi"))) ("configuration") = false from rfl,
      show platformFlag (buildConfigData pn pt (some ("gateway,hmi"))) ("cloud") = false from rfl,
      show platformFlag (buildConfigData pn pt (some ("gateway,hmi"))) ("app") = false from rfl,
      show platformFlag (buildConfigData pn pt (some ("gateway,hmi"))) ("edge-ai") = false from rfl,
      show platformFlag (buildConfigData pn pt (some ("gateway,hmi"))) ("scada") = false from rfl,
      show platformFlag (buildConfigData pn pt (some ("gateway,hmi"))) ("web-editor") = false from rfl]
    rw [show (("hmi" == "gateway") || ("hmi" == "hmi")) = true from rfl]
    apply strOccurs_right
    apply strOccurs_right
    apply strOccurs_right
    apply strOccurs_right
    apply strOccurs_right
    apply strOccurs_right
    apply strOccurs_right
    exact strOccurs_appendEnd _ _
  · refine ⟨rfl, ?_⟩
    rw [hchar]
    rw [show platformFlag (buildConfigData pn pt (some ("gateway,hmi"))) ("gateway") = true from rfl,
      show platformFlag (buildConfigData pn pt (some ("gateway,hmi"))) ("hmi") = true from rfl,
      show platformFlag (buildConfigData pn pt (some ("gateway,hmi"))) ("configuration") = false from rfl,
      show platformFlag (buildConfigData pn pt (some ("gateway,hmi"))) ("cloud") = false from rfl,
      show platformFlag (buildConfigData pn pt (some ("gateway,hmi"))) ("app") = false from rfl,
      show platformFlag (buildConfigData pn pt (some ("gateway,hmi"))) ("edge-ai") = false from rfl,
      show platformFlag (buildConfigData pn pt (some ("gateway,hmi"))) ("scada") = false from rfl,
      show platformFlag (buildConfigData pn pt (some ("gateway,hmi"))) ("web-editor") = false from rfl]
    rw [show (("configuration" == "gateway") || ("configuration" == "hmi")) = false from rfl]
    apply strOccurs_right
    apply strOccurs_right
    apply strOccurs_right
    apply strOccurs_right
    apply strOccurs_right
    apply strOccurs_right
    exact strOccurs_appendEnd _ _
  · refine ⟨rfl, ?_⟩
    rw [hchar]
    rw [show platformFlag (buildConfigData pn pt (some ("gateway,hmi"))) ("gateway") = true from rfl,
      show platformFlag (buildConfigData pn pt (some ("gateway,hmi"))) ("hmi") = true from rfl,
      show platformFlag (buildConfigData pn pt (some ("gateway,hmi"))) ("configuration") = false from rfl,
      show platformFlag (buildConfigData pn pt (some ("gateway,hmi"))) ("cloud") = false from rfl,
      show platformFlag (buildConfigData pn pt (some ("gateway,hmi"))) ("app") = false from rfl,
      show platformFlag (buildConfigData pn pt (some ("gateway,hmi"))) ("edge-ai") = false from rfl,
      show platformFlag (buildConfigData pn pt (some ("gateway,hmi"))) ("scada") = false from rfl,
      show platformFlag (buildConfigData pn pt (some ("gateway,hmi"))) ("web-editor") = false from rfl]
    rw [show (("cloud" == "gateway") || ("cloud" == "hmi")) = false from rfl]
    apply strOccurs_right
    apply strOccurs_right
    apply strOccurs_right
    apply strOccurs_right
    apply strOccurs_right
    exact strOccurs_appendEnd _ _
  · refine ⟨rfl, ?_⟩
    rw [hchar]
    rw [show platformFlag (buildConfigData pn pt (some ("gateway,hmi"))) ("gateway") = true from rfl,
      show platformFlag (buildConfigData pn pt (some ("gateway,hmi"))) ("hmi") = true from rfl,
      show platformFlag (buildConfigData pn pt (some ("gateway,hmi"))) ("configuration") = false from rfl,
      show platformFlag (buildConfigData pn pt (some ("gateway,hmi"))) ("cloud") = false from rfl,
      show platformFlag (buildConfigData pn pt (some ("gateway,hmi"))) ("app") = false from rfl,
      show platformFlag (buildConfigData pn pt (some ("gateway,hmi"))) ("edge-ai") = false from rfl,
      show platformFlag (buildConfigData pn pt (some ("gateway,hmi"))) ("scada") = false from rfl,
      show platformFlag (buildConfigData pn pt (some ("gateway,hmi"))) ("web-editor") = false from rfl]
    rw [show (("app" == "gateway") || ("app" == "hmi")) = false from rfl]
    apply strOccurs_right
    apply strOccurs_right
    apply strOccurs_right
    apply strOccurs_right
    exact strOccurs_appendEnd _ _
  · refine ⟨rfl, ?_⟩
    rw [hchar]
    rw [show platformFlag (buildConfigData pn pt (some ("gateway,hmi"))) ("gateway") = true from rfl,
      show platformFlag (buildConfigData pn pt (some ("gateway,hmi"))) ("hmi") = true from rfl,
      show platformFlag (buildConfigData pn pt (some ("gateway,hmi"))) ("configuration") = false from rfl,
      show platformFlag (buildConfigData pn pt (some ("gateway,hmi"))) ("cloud") = false from rfl,
      show platformFlag (buildConfigData pn pt (some ("gateway,hmi"))) ("app") = false from rfl,
      show platformFlag (buildConfigData pn pt (some ("gateway,hmi"))) ("edge-ai") = false from rfl,
      show platformFlag (buildConfigData pn pt (some ("gateway,hmi"))) ("scada") = false from rfl,
      show platformFlag (buildConfigData pn pt (some ("gateway,hmi"))) ("web-editor") = false from rfl]
    rw [show (("edge-ai" == "gateway") || ("edge-ai" == "hmi")) = false from rfl]
    apply strOccurs_right
    apply strOccurs_right
    apply strOccurs_right
    exact strOccurs_appendEnd _ _
  · refine ⟨rfl, ?_⟩
    rw [hchar]
    rw [show platformFlag (buildConfigData pn pt (some ("gateway,hmi"))) ("gateway") = true from rfl,
      show platformFlag (buildConfigData pn pt (some ("gateway,hmi"))) ("hmi") = true from rfl,
      show platformFlag (buildConfigData pn pt (some ("gateway,hmi"))) ("configuration") = false from rfl,
      show platformFlag (buildConfigData pn pt (some ("gateway,hmi"))) ("cloud") = false from rfl,
      show platformFlag (buildConfigData pn pt (some ("gateway,hmi"))) ("app") = false from rfl,
      show platformFlag (buildConfigData pn pt (some ("gateway,hmi"))) ("edge-ai") = false from rfl,
      show platformFlag (buildConfigData pn pt (some ("gateway,hmi"))) ("scada") = false from rfl,
      show platformFlag (buildConfigData pn pt (some ("gateway,hmi"))) ("web-editor") = false from rfl]
    rw [show (("scada" == "gateway") || ("scada" == "hmi")) = false from rfl]
    apply strOccurs_right
    apply strOccurs_right
    exact strOccurs_appendEnd _ _
  · refine ⟨rfl, ?_⟩
    rw [hchar]
    rw [show platformFlag (buildConfigData pn pt (some ("gateway,hmi"))) ("gateway") = true from rfl,
      show platformFlag (buildConfigData pn pt (some ("gateway,hmi"))) ("hmi") = true from rfl,
      show platformFlag (buildConfigData pn pt (some ("gateway,hmi"))) ("configuration") = false from rfl,
      show platformFlag (buildConfigData pn pt (some ("gateway,hmi"))) ("cloud") = false from rfl,
      show platformFlag (buildConfigData pn pt (some ("gateway,hmi"))) ("app") = false from rfl,
      show platformFlag (buildConfigData pn pt (some ("gateway,hmi"))) ("edge-ai") = false from rfl,
      show platformFlag (buildConfigData pn pt (some ("gateway,hmi"))) ("scada") = false from rfl,
      show platformFlag (buildConfigData pn pt (some ("gateway,hmi"))) ("web-editor") = false from rfl]
    rw [show (("web-editor" == "gateway") || ("web-editor" == "hmi")) = false from rfl]
    apply strOccurs_right
    exact strOccurs_appendEnd _ _

/-- C3 witness: the theorem at the `configuration` platform. -/
theorem C3_witness :
    platformFlag (buildConfigData none ("application") (some ("gateway,hmi"))) ("configuration")
        = (("configuration" == "gateway") || ("configuration" == "hmi"))
    ∧ strOccurs
        (specPlatformLine ("configuration") (displayName ("configuration"))
          (("configuration" == "gateway") || ("configuration" == "hmi")))
        (configYamlContent (buildConfigData none ("application") (some ("gateway,hmi")))) :=
  C3_platforms_gateway_hmi none ("application") ("configuration") (by decide)

/-- C10: platform matching lowercases the whole `--platforms` argument
before splitting on commas (so mixed-case names are recognized), but
tokens are not trimmed: a platform whose id never appears verbatim among
the comma-split tokens of the lowercased argument stays disabled; in
particular `" hmi"` (with its leading space) does not enable `hmi`. -/
theorem C10_case_insensitive_untrimmed (pn : Option String) (pt : String) (s pid : String)
    (h1 : pid ∈ recognizedPlatforms) (h2 : pid ∉ pySplit (pyLower s) (',')) :
    platformFlag (buildConfigData pn pt (some s)) pid = false
    ∧ platformFlag (buildConfigData pn pt (some ("GATEWAY, Hmi"))) ("gateway") = true
    ∧ platformFlag (buildConfigData pn pt (some ("GATEWAY, Hmi"))) ("hmi") = false := by
  refine ⟨?_, rfl, rfl⟩
  have hpn : pid ≠ "project_name" := by rintro rfl; revert h1; decide
  have hpt : pid ≠ "project_type" := by rintro rfl; revert h1; decide
  by_cases hs : s = ""
  · subst hs
    simp [platformFlag, buildConfigData, dictGet, lookup_base_none pid _ _ hpn hpt, pyValBool]
  · simp only [platformFlag, buildConfigData, dictGet, if_neg hs]
    rw [foldl_dictSet_lookup_ne _ _ _ h2, lookup_base_none pid _ _ hpn hpt]
    rfl

/-- C10 witness: `" hmi"` from `"gateway, hmi"` leaves `hmi` disabled,
while mixed-case `"GATEWAY, Hmi"` still enables `gateway`. -/
theorem C10_witness :
    platformFlag (buildConfigData none ("application") (some ("gateway, hmi"))) ("hmi") = false
    ∧ platformFlag (buildConfigData none ("application") (some ("GATEWAY, Hmi"))) ("gateway") = true
    ∧ platformFlag (buildConfigData none ("application") (some ("GATEWAY, Hmi"))) ("hmi") = false :=
  C10_case_insensitive_untrimmed none ("application") ("gateway, hmi") ("hmi") (by decide)
    (by decide)

/-! ## Template claims (C8, C4) -/

/-- C8 (amended): all file writes of `copy_templates` land under the
workflow directory; hence when the template-source directory is disjoint
from the workflow directory (neither contains the other, e.g. a sibling),
every path under the template source is only read, never written. -/
theorem C8_template_source_not_written (self : WorkflowInitializer) (ts : String)
    (w : World) (p : FPath)
    (h1 : ¬ splitPath ts <+: self.workflow_dir)
    (h2 : ¬ self.workflow_dir <+: splitPath ts)
    (h3 : splitPath ts <+: p) :
    (copy_templates self ts w).fs.readFile p = w.fs.readFile p := by
  refine copy_templates_writes_under_workflow self ts w p ?_
  intro hwf
  rcases List.prefix_or_prefix_of_prefix h3 hwf with hc | hc
  · exact h1 hc
  · exact h2 hc

/-- C8 witness: a sibling template source is untouched. -/
theorem C8_witness :
    (copy_templates initA ("home/tsrc") worldA).fs.readFile (["home", "tsrc", "f.md"])
      = worldA.fs.readFile (["home", "tsrc", "f.md"]) :=
  C8_template_source_not_written initA ("home/tsrc") worldA (["home", "tsrc", "f.md"])
    (by decide) (by decide) (by decide)

/-- A starting world holding one template file inside the workflow
directory itself, used by the C8 counterexample. -/
def worldB : World :=
  ⟨⟨[], [(["home", "proj", ".claude-workflow", ".claude-workflow", "templates",
      "REQ-template.md"], "X")]⟩, []⟩

/-- C8 counterexample: with the workflow directory itself passed as the
template source, `copy_templates` writes a file at a path lying under the
template-source directory. -/
theorem C8_counterexample :
    (splitPath ("home/proj/.claude-workflow")).isPrefixOf
        (destTop initA ("REQ-template.md")) = true
    ∧ (copy_templates initA ("home/proj/.claude-workflow") worldB).fs.readFile
        (destTop initA ("REQ-template.md")) = some ("X")
    ∧ worldB.fs.readFile (destTop initA ("REQ-template.md")) = none := by
  refine ⟨rfl, rfl, rfl⟩

lemma fileExists_congr (fs₁ fs₂ : FS) (p : FPath)
    (h : fs₁.readFile p = fs₂.readFile p) : fs₁.fileExists p = fs₂.fileExists p := by
  simp [FS.fileExists, h]

lemma destTop_inj (self : WorkflowInitializer) (t u : String)
    (h : destTop self t = destTop self u) : t = u := by
  have := List.append_cancel_left h
  simpa using this

/-- Along the first loop, a missing top-level template source stays
missing (all writes land under the workflow directory) and its
destination is never written. -/
lemma copyTop_fold_absent (self : WorkflowInitializer) (ts : String) (t : String)
    (hsrc : ¬ self.workflow_dir <+: srcTop ts t) (l : List String) :
    ∀ (w : World), w.fs.fileExists (srcTop ts t) = false →
      ((l.foldl (copyTopStep self ts) w).fs.fileExists (srcTop ts t) = false
        ∧ (l.foldl (copyTopStep self ts) w).fs.readFile (destTop self t)
            = w.fs.readFile (destTop self t)) := by
  induction l with
  | nil => exact fun w habs => ⟨habs, rfl⟩
  | cons u rest ih =>
    intro w habs
    rw [List.foldl_cons]
    by_cases hu : u = t
    · subst hu
      unfold copyTopStep
      rw [habs]
      simp only [Bool.false_eq_true, if_false]
      exact ih _ habs
    · have hne_src : srcTop ts t ≠ destTop self u :=
        fun he => hsrc (he.symm ▸ destTop_under_workflow self u)
      have habs' : (copyTopStep self ts w u).fs.fileExists (srcTop ts t) = false := by
        rw [fileExists_congr _ w.fs _ (copyTopStep_readFile_ne self ts w u _ hne_src)]
        exact habs
      obtain ⟨ha, hb⟩ := ih _ habs'
      refine ⟨ha, ?_⟩
      rw [hb, copyTopStep_readFile_ne self ts w u _
        (fun he => hu ((destTop_inj self t u he).symm))]

/-- A missing top-level template produces its warning line. -/
lemma copyTop_fold_warning (self : WorkflowInitializer) (ts : String) (t : String)
    (hsrc : ¬ self.workflow_dir <+: srcTop ts t) (l : List String) :
    ∀ (w : World), t ∈ l → w.fs.fileExists (srcTop ts t) = false →
      ("  ⚠️  Template not found: " ++ t) ∈ (l.foldl (copyTopStep self ts) w).out := by
  induction l with
  | nil => intro w hmem; cases hmem
  | cons u rest ih =>
    intro w hmem habs
    rw [List.foldl_cons]
    by_cases hu : u = t
    · subst hu
      unfold copyTopStep
      rw [habs]
      simp only [Bool.false_eq_true, if_false]
      refine foldl_copyTop_out_mono self ts rest _ _ ?_
      simp [World.print]
    · rcases List.mem_cons.mp hmem with he | hrest
      · exact absurd he.symm hu
      · refine ih _ hrest ?_
        rw [fileExists_congr _ w.fs _ (copyTopStep_readFile_ne self ts w u _
          (fun he => hsrc (by rw [he]; exact destTop_under_workflow self u)))]
        exact habs

/-- Along the second loop, a missing state template source stays missing
and its destination is never written (missing state templates are skipped
with no output at all). -/
lemma copyState_fold_absent (self : WorkflowInitializer) (ts : String) (t : String)
    (hsrc : ¬ self.workflow_dir <+: srcState ts t) (l : List String)
    (hdist : ∀ u ∈ l, u ≠ t → destState self u ≠ destState self t) :
    ∀ (w : World), w.fs.fileExists (srcState ts t) = false →
      ((l.foldl (copyStateStep self ts) w).fs.fileExists (srcState ts t) = false
        ∧ (l.foldl (copyStateStep self ts) w).fs.readFile (destState self t)
            = w.fs.readFile (destState self t)) := by
  induction l with
  | nil => exact fun w habs => ⟨habs, rfl⟩
  | cons u rest ih =>
    intro w habs
    rw [List.foldl_cons]
    have hdist' : ∀ v ∈ rest, v ≠ t → destState self v ≠ destState self t :=
      fun v hv => hdist v (List.mem_cons_of_mem u hv)
    by_cases hu : u = t
    · subst hu
      have hstep : copyStateStep self ts w u = w := by
        unfold copyStateStep
        rw [habs]
        simp only [Bool.false_eq_true, if_false]
      rw [hstep]
      exact ih hdist' _ habs
    · have hne_src : srcState ts t ≠ destState self u :=
        fun he => hsrc (by rw [he]; exact destState_under_workflow self u)
      have habs' : (copyStateStep self ts w u).fs.fileExists (srcState ts t) = false := by
        rw [fileExists_congr _ w.fs _ (copyStateStep_readFile_ne self ts w u _ hne_src)]
        exact habs
      obtain ⟨ha, hb⟩ := ih hdist' _ habs'
      refine ⟨ha, ?_⟩
      rw [hb, copyStateStep_readFile_ne self ts w u _
        (hdist u (List.mem_cons_self u rest) hu).symm]

lemma destTop_eq (self : WorkflowInitializer) (t : String) :
    destTop self t = self.workflow_dir ++ ["templates", t] := by
  simp [destTop]

lemma destState_eq_active (self : WorkflowInitializer) :
    destState self ("parallel-tasks/active-tasks-template.md")
      = self.workflow_dir ++ ["parallel-tasks", "active-tasks.md"] := rfl

lemma destState_eq_taskdeps (self : WorkflowInitializer) :
    destState self ("parallel-tasks/task-dependencies-template.md")
      = self.workflow_dir ++ ["parallel-tasks", "task-dependencies.md"] := rfl

lemma destState_eq_backlog (self : WorkflowInitializer) :
    destState self ("dependency-backlog-template.md")
      = self.workflow_dir ++ ["dependency-backlog.md"] := rfl

lemma destState_eq_featmap (self : WorkflowInitializer) :
    destState self ("feature-to-code-map-template.md")
      = self.workflow_dir ++ ["feature-to-code-map.md"] := rfl

lemma destState_eq_rtmatrix (self : WorkflowInitializer) :
    destState self ("rt-matrix-template.md")
      = self.workflow_dir ++ ["rt-matrix.md"] := rfl

/-- C4 (amended): for every filename in the template manifest whose
source file is absent (the source lying outside the workflow directory),
`copy_templates` does not raise, writes nothing at that destination, and
continues; a missing top-level template is skipped with a warning line,
while a missing state template is skipped silently. -/
theorem C4_missing_template_skipped (self : WorkflowInitializer) (ts : String) (w : World)
    (t : String) (hmem : t ∈ templatesManifest ++ stateTemplatesManifest)
    (hsrc : ¬ self.workflow_dir <+:
        (if t ∈ templatesManifest then srcTop ts t else srcState ts t))
    (habs : w.fs.fileExists
        (if t ∈ templatesManifest then srcTop ts t else srcState ts t) = false) :
    (copy_templates self ts w).fs.readFile
        (if t ∈ templatesManifest then destTop self t else destState self t)
      = w.fs.readFile (if t ∈ templatesManifest then destTop self t else destState self t)
    ∧ (if t ∈ templatesManifest
        then ("  ⚠️  Template not found: " ++ t) ∈ (copy_templates self ts w).out
        else True) := by
  rcases List.mem_append.mp hmem with htop | hstate
  · simp only [if_pos htop] at hsrc habs ⊢
    have hstate_pres : ∀ u ∈ stateTemplatesManifest, destTop self t ≠ destState self u := by
      intro u hu
      fin_cases hu <;>
        (simp only [destTop_eq, destState_eq_active, destState_eq_taskdeps,
          destState_eq_backlog, destState_eq_featmap, destState_eq_rtmatrix]
         exact append_ne_append_of_ne _ (by simp))
    constructor
    · unfold copy_templates
      simp only [print_fs]
      rw [foldl_copyState_readFile_ne self ts _ _ _ hstate_pres,
        (copyTop_fold_absent self ts t hsrc templatesManifest
          (w.print ("📄 Copying template files...")) habs).2]
      rfl
    · unfold copy_templates
      refine mem_out_print _ _ _ ?_
      refine foldl_copyState_out_mono _ _ _ _ _ ?_
      exact copyTop_fold_warning self ts t hsrc templatesManifest
        (w.print ("📄 Copying template files...")) htop habs
  · have hnot : t ∉ templatesManifest := by
      fin_cases hstate <;> decide
    simp only [if_neg hnot] at hsrc habs ⊢
    refine ⟨?_, trivial⟩
    have htop_pres : ∀ u ∈ templatesManifest, destState self t ≠ destTop self u := by
      intro u hu
      fin_cases hstate <;>
        (simp only [destTop_eq, destState_eq_active, destState_eq_taskdeps,
          destState_eq_backlog, destState_eq_featmap, destState_eq_rtmatrix]
         exact append_ne_append_of_ne _ (by simp))
    have hdist : ∀ u ∈ stateTemplatesManifest, u ≠ t → destState self u ≠ destState self t := by
      intro u hu hne
      fin_cases hstate <;> fin_cases hu <;>
        first
        | exact absurd rfl hne
        | (simp only [destState_eq_active, destState_eq_taskdeps, destState_eq_backlog,
            destState_eq_featmap, destState_eq_rtmatrix]
           exact append_ne_append_of_ne _ (by simp))
    have habs' : ((templatesManifest.foldl (copyTopStep self ts)
        (w.print ("📄 Copying template files..."))).fs.fileExists (srcState ts t)) = false := by
      rw [fileExists_congr _ w.fs _ ?_]
      · exact habs
      · rw [foldl_copyTop_readFile_ne self ts templatesManifest _ _
          (fun u _ he => hsrc (by rw [he]; exact destTop_under_workflow self u))]
        rfl
    unfold copy_templates
    simp only [print_fs]
    rw [(copyState_fold_absent self ts t hsrc stateTemplatesManifest hdist
        (templatesManifest.foldl (copyTopStep self ts)
          (w.print ("📄 Copying template files..."))) habs').2,
      foldl_copyTop_readFile_ne self ts templatesManifest _ _ htop_pres]
    rfl

/-- C4 witness: a missing top-level template is skipped with its warning
and nothing is written at its destination. -/
theorem C4_witness :
    (copy_templates initA ("tsrc") worldA).fs.readFile
        (if ("REQ-template.md" : String) ∈ templatesManifest
          then destTop initA ("REQ-template.md") else destState initA ("REQ-template.md"))
      = worldA.fs.readFile
        (if ("REQ-template.md" : String) ∈ templatesManifest
          then destTop initA ("REQ-template.md") else destState initA ("REQ-template.md"))
    ∧ (if ("REQ-template.md" : String) ∈ templatesManifest
        then ("  ⚠️  Template not found: " ++ "REQ-template.md")
          ∈ (copy_templates initA ("tsrc") worldA).out
        else True) :=
  C4_missing_template_skipped initA ("tsrc") worldA ("REQ-template.md") (by decide) (by decide)
    (by decide)

/-- C4 counterexample: with an empty file system every template source is
absent, yet the console output contains warnings only for the four
top-level templates: the five state templates are skipped with no warning
at all, contradicting the claim that every skipped manifest file gets a
warning. -/
theorem C4_counterexample :
    (copy_templates initA ("tsrc") worldA).out
      = ["📄 Copying template files...",
         "  ⚠️  Template not found: REQ-template.md",
         "  ⚠️  Template not found: FE-template.md",
         "  ⚠️  Template not found: SOL-template.md",
         "  ⚠️  Template not found: IMP-template.md",
         "✅ Template files copied"]
    ∧ worldA.fs.fileExists (srcState ("tsrc") ("rt-matrix-template.md")) = false
    ∧ (copy_templates initA ("tsrc") worldA).out.contains
        ("  ⚠️  Template not found: " ++ "rt-matrix-template.md") = false := by
  refine ⟨rfl, rfl, by decide⟩

/-! ## State-document claim (C6) -/

lemma initializeWorkflow_readFile_cp (self : WorkflowInitializer)
    (cd : Option (List (String × PyVal))) (ts : Option String) (w w' : World)
    (hrun : initializeWorkflow self cd ts w = .ok w') :
    w'.fs.readFile (self.workflow_dir ++ ["current-phase.md"])
      = some (current_phase_text self) := by
  unfold initializeWorkflow at hrun
  simp only [create_directories_eq, Except.ok.injEq] at hrun
  cases ts with
  | none =>
    subst hrun
    simp only [print_fs, create_readme_fs]
    rw [readFile_writeFile_ne _ _ _ _ (append_ne_append_of_ne _ (by decide))]
    exact create_initial_state_readFile_cp self _
  | some s =>
    by_cases hs : s = ""
    · simp only [hs, if_pos rfl] at hrun
      subst hrun
      simp only [print_fs, create_readme_fs]
      rw [readFile_writeFile_ne _ _ _ _ (append_ne_append_of_ne _ (by decide))]
      exact create_initial_state_readFile_cp self _
    · simp only [if_neg hs] at hrun
      subst hrun
      simp only [print_fs, create_readme_fs]
      rw [readFile_writeFile_ne _ _ _ _ (append_ne_append_of_ne _ (by decide))]
      exact create_initial_state_readFile_cp self _

/-- C6: after every run, `current-phase.md` holds the generated content,
which contains the run-time date string (the `strftime("%Y-%m-%d")`
result stored at construction) and the literal basename of the resolved
project directory (`workflow_dir.parent.name`). -/
theorem C6_current_phase_contains_date_and_basename (self : WorkflowInitializer)
    (cd : Option (List (String × PyVal))) (ts : Option String) (w w' : World)
    (hrun : initializeWorkflow self cd ts w = .ok w') :
    w'.fs.readFile (self.workflow_dir ++ ["current-phase.md"])
        = some (current_phase_text self)
    ∧ strOccurs self.date (current_phase_text self)
    ∧ strOccurs (pathName (parentPath self.workflow_dir)) (current_phase_text self) := by
  refine ⟨initializeWorkflow_readFile_cp self cd ts w w' hrun, ?_, ?_⟩
  · unfold current_phase_text
    apply strOccurs_right
    exact strOccurs_appendEnd _ _
  · unfold current_phase_text
    apply strOccurs_right
    apply strOccurs_right
    apply strOccurs_right
    exact strOccurs_appendEnd _ _

/-- C6 witness: the theorem at a concrete run. -/
theorem C6_witness :
    runA.fs.readFile (initA.workflow_dir ++ ["current-phase.md"])
        = some (current_phase_text initA)
    ∧ strOccurs initA.date (current_phase_text initA)
    ∧ strOccurs (pathName (parentPath initA.workflow_dir)) (current_phase_text initA) :=
  C6_current_phase_contains_date_and_basename initA none none worldA runA rfl

/-! ## Initialization-order claim (C9) -/

lemma create_initial_state_fs (self : WorkflowInitializer) (w : World) :
    (create_initial_state self w).fs =
      (((((w.fs.writeFile (self.workflow_dir ++ ["current-phase.md"]) (current_phase_text self)).writeFile
        (self.workflow_dir ++ ["parallel-tasks", "active-tasks.md"]) (active_tasks_text self)).writeFile
        (self.workflow_dir ++ ["parallel-tasks", "task-dependencies.md"]) (task_dependencies_text)).writeFile
        (self.workflow_dir ++ ["dependency-backlog.md"]) (dependency_backlog_text)).writeFile
        (self.workflow_dir ++ ["feature-to-code-map.md"]) (feature_map_text)).writeFile
        (self.workflow_dir ++ ["rt-matrix.md"]) (rt_matrix_text self) := rfl

lemma copyTopStep_fs_inv (self : WorkflowInitializer) (ts : String) (w₁ w₂ : World)
    (t : String) (h : w₁.fs = w₂.fs) :
    (copyTopStep self ts w₁ t).fs = (copyTopStep self ts w₂ t).fs := by
  unfold copyTopStep
  rw [h]
  split <;> simp [print_fs, h]

lemma copyStateStep_fs_inv (self : WorkflowInitializer) (ts : String) (w₁ w₂ : World)
    (t : String) (h : w₁.fs = w₂.fs) :
    (copyStateStep self ts w₁ t).fs = (copyStateStep self ts w₂ t).fs := by
  unfold copyStateStep
  rw [h]
  split <;> simp [print_fs, h]

lemma foldl_copyTop_fs_inv (self : WorkflowInitializer) (ts : String) (l : List String)
    (w₁ w₂ : World) (h : w₁.fs = w₂.fs) :
    (l.foldl (copyTopStep self ts) w₁).fs = (l.foldl (copyTopStep self ts) w₂).fs := by
  induction l generalizing w₁ w₂ with
  | nil => exact h
  | cons t rest ih => exact ih _ _ (copyTopStep_fs_inv self ts w₁ w₂ t h)

lemma foldl_copyState_fs_inv (self : WorkflowInitializer) (ts : String) (l : List String)
    (w₁ w₂ : World) (h : w₁.fs = w₂.fs) :
    (l.foldl (copyStateStep self ts) w₁).fs = (l.foldl (copyStateStep self ts) w₂).fs := by
  induction l generalizing w₁ w₂ with
  | nil => exact h
  | cons t rest ih => exact ih _ _ (copyStateStep_fs_inv self ts w₁ w₂ t h)

lemma copy_templates_fs_inv (self : WorkflowInitializer) (ts : String) (w₁ w₂ : World)
    (h : w₁.fs = w₂.fs) :
    (copy_templates self ts w₁).fs = (copy_templates self ts w₂).fs := by
  unfold copy_templates
  simp only [print_fs]
  exact foldl_copyState_fs_inv self ts _ _ _
    (foldl_copyTop_fs_inv self ts _ _ _ (by simp [print_fs, h]))

lemma copy_templates_banner (self : WorkflowInitializer) (ts : String) (w : World) :
    templatesBanner ∈ (copy_templates self ts w).out := by
  unfold copy_templates
  refine mem_out_print _ _ _ ?_
  refine foldl_copyState_out_mono _ _ _ _ _ ?_
  refine foldl_copyTop_out_mono _ _ _ _ _ ?_
  simp [World.print, templatesBanner]

lemma mem_out_config (self : WorkflowInitializer) (cd : List (String × PyVal)) (w : World)
    (x : String) (h : x ∈ w.out) : x ∈ (create_initial_config self cd w).out := by
  rw [create_initial_config_out]
  exact List.mem_append_left _ h

lemma mem_out_state (self : WorkflowInitializer) (w : World) (x : String)
    (h : x ∈ w.out) : x ∈ (create_initial_state self w).out := by
  rw [create_initial_state_out]
  exact List.mem_append_left _ h

lemma mem_out_readme (self : WorkflowInitializer) (w : World) (x : String)
    (h : x ∈ w.out) : x ∈ (create_readme self w).out := h

lemma mem_print_self (w : World) (s : String) : s ∈ (w.print s).out := by
  simp [World.print]

set_option maxHeartbeats 2000000 in
/-- C9 (amended): `initialize` performs its steps in the fixed order
directories → templates → config → state documents → README (captured by
the file-system composition `stepsFS`); the template-copy step runs if
and only if the supplied template source is truthy, i.e. present and
nonempty (observable by its console banner), and when the source is
omitted or empty the step is skipped entirely with a console notice while
all other steps still run. -/
theorem C9_fixed_order_and_template_guard (self : WorkflowInitializer)
    (cd : List (String × PyVal)) (ts : Option String) (w w' : World)
    (hrun : initializeWorkflow self (some cd) ts w = .ok w') (hout : w.out = []) :
    w'.fs = stepsFS self cd ts w.fs
    ∧ (match ts with
       | some s =>
         if s = "" then skipTemplatesNotice ∈ w'.out ∧ templatesBanner ∉ w'.out
         else templatesBanner ∈ w'.out
       | none => skipTemplatesNotice ∈ w'.out ∧ templatesBanner ∉ w'.out) := by
  unfold initializeWorkflow at hrun
  simp only [create_directories_eq, Except.ok.injEq] at hrun
  cases ts with
  | none =>
    subst hrun
    refine ⟨?_, ?_, ?_⟩
    · simp only [stepsFS, create_directories_eq]
      rfl
    · apply mem_out_print
      apply mem_out_print
      apply mem_out_print
      apply mem_out_print
      apply mem_out_print
      apply mem_out_print
      apply mem_out_print
      apply mem_out_print
      apply mem_out_print
      apply mem_out_print
      apply mem_out_readme
      apply mem_out_print
      apply mem_out_state
      apply mem_out_print
      apply mem_out_config
      apply mem_out_print
      exact mem_print_self _ _
    · simp only [print_out, create_initial_config_out, create_initial_state_out,
        create_readme_out, hout, List.nil_append, List.append_assoc]
      decide
  | some s =>
    by_cases hs : s = ""
    · subst hs
      simp only [reduceIte] at hrun
      subst hrun
      simp only [reduceIte]
      refine ⟨?_, ?_, ?_⟩
      · simp only [stepsFS, create_directories_eq, reduceIte]
        rfl
      · apply mem_out_print
        apply mem_out_print
        apply mem_out_print
        apply mem_out_print
        apply mem_out_print
        apply mem_out_print
        apply mem_out_print
        apply mem_out_print
        apply mem_out_print
        apply mem_out_print
        apply mem_out_readme
        apply mem_out_print
        apply mem_out_state
        apply mem_out_print
        apply mem_out_config
        apply mem_out_print
        exact mem_print_self _ _
      · simp only [print_out, create_initial_config_out, create_initial_state_out,
          create_readme_out, hout, List.nil_append, List.append_assoc]
        decide
    · simp only [if_neg hs] at hrun
      subst hrun
      simp only [if_neg hs]
      constructor
      · simp only [stepsFS, create_directories_eq, if_neg hs]
        simp only [print_fs, create_readme_fs, create_initial_state_fs,
          create_initial_config_fs]
        exact congrArg
          (fun fs : FS =>
            ((((((((fs.writeFile (self.workflow_dir ++ ["config.yml"]) (configYamlContent cd)).writeFile
              (self.workflow_dir ++ ["current-phase.md"]) (current_phase_text self)).writeFile
              (self.workflow_dir ++ ["parallel-tasks", "active-tasks.md"]) (active_tasks_text self)).writeFile
              (self.workflow_dir ++ ["parallel-tasks", "task-dependencies.md"]) (task_dependencies_text)).writeFile
              (self.workflow_dir ++ ["dependency-backlog.md"]) (dependency_backlog_text)).writeFile
              (self.workflow_dir ++ ["feature-to-code-map.md"]) (feature_map_text)).writeFile
              (self.workflow_dir ++ ["rt-matrix.md"]) (rt_matrix_text self)).writeFile
              (self.workflow_dir ++ ["README.md"]) (readme_text)))
          (copy_templates_fs_inv self s _ ⟨mkdirFoldFS self dirsManifest w.fs, []⟩ rfl)
      · apply mem_out_print
        apply mem_out_print
        apply mem_out_print
        apply mem_out_print
        apply mem_out_print
        apply mem_out_print
        apply mem_out_print
        apply mem_out_print
        apply mem_out_print
        apply mem_out_print
        apply mem_out_readme
        apply mem_out_print
        apply mem_out_state
        apply mem_out_print
        apply mem_out_config
        apply mem_out_print
        exact copy_templates_banner self s _

/-- The world produced by a concrete run with a template source. -/
def runC9 : World :=
  match initializeWorkflow initA (some []) (some ("tsrc")) worldA with
  | .ok w => w
  | .error _ => worldA

/-- C9 witness: the theorem at a concrete run with a nonempty source. -/
theorem C9_witness :
    runC9.fs = stepsFS initA [] (some ("tsrc")) worldA.fs
    ∧ (match (some ("tsrc") : Option String) with
       | some s =>
         if s = "" then skipTemplatesNotice ∈ runC9.out ∧ templatesBanner ∉ runC9.out
         else templatesBanner ∈ runC9.out
       | none => skipTemplatesNotice ∈ runC9.out ∧ templatesBanner ∉ runC9.out) :=
  C9_fixed_order_and_template_guard initA [] (some ("tsrc")) worldA runC9 rfl rfl

/-- The world produced by a concrete run with no template source. -/
def c9runSkip : World :=
  match initializeWorkflow initA (some []) none worldA with
  | .ok w => w
  | .error _ => worldA

/-- C9 counterexample: supplying `--template-source ""` (a supplied but
empty path, which is falsy in Python) behaves exactly like omitting the
option: the template step is skipped (no copy banner, skip notice
printed), refuting "runs if and only if a template source path was
supplied". -/
theorem C9_counterexample :
    initializeWorkflow initA (some []) (some ("")) worldA = Except.ok c9runSkip
    ∧ c9runSkip.out.contains templatesBanner = false
    ∧ c9runSkip.out.contains skipTemplatesNotice = true := by
  refine ⟨rfl, by decide, by decide⟩
